import Mathlib

/-!
Verification of the avatar-upload core of the CCC181-WEB-SSIS application.

Strings are modelled shallowly as lists of characters (`Str`), so that the
JavaScript string operations used by the source (`startsWith`, `slice(1)`,
concatenation, equality) become the corresponding executable `List`
operations. `lit` injects a Lean string literal into the model.
-/

namespace SSIS

abbrev Str := List Char

def lit (s : String) : Str := s.data

/-! ## Frontend data model (src/frontend/src/pages/Students.tsx) -/

inductive Gender where
  | Male
  | Female
deriving DecidableEq

/-- The `Student` row shape used by the Students page: `photoPath` is the
nullable object path stored for the avatar (`photoPath?: string | null`). -/
structure Student where
  id : Str
  firstName : Str
  lastName : Str
  yearLevel : Nat
  gender : Gender
  college : Str
  program : Str
  photoPath : Option Str
deriving DecidableEq

/-- A selected browser `File`: name, byte size, and MIME type. -/
structure FileModel where
  name : Str
  size : Nat
  type : Str
deriving DecidableEq

/-! ## buildPhotoUrl / isValidPhotoUrl (Students.tsx lines 100-133) -/

/-- The hard-coded Supabase base URL of Students.tsx line 110. -/
def supabaseUrl : Str := lit "https://iwmcuzrymhjltvrgddpe.supabase.co"

/-- The default bucket name (`bucketName: string = 'ssis_web_bucket'`). Every
call site of `buildPhotoUrl` in the source passes only the path, so the
default bucket is used throughout; the embedding fixes it. -/
def bucketName : Str := lit "ssis_web_bucket"

/-- Embedding of `buildPhotoUrl` (Students.tsx lines 100-129). A JS-falsy
`photoPath` (`null`, `undefined`, `""`) yields `""`; otherwise one leading
`'/'` is stripped, the bucket prefix is added unless already present, and the
public-object URL is assembled by string concatenation. The `try`/`catch`
around pure string operations can never take the `catch` branch and is
omitted. -/
def cleanPathOf (p : Str) : Str :=
  if (lit "/").isPrefixOf p then p.drop 1 else p

def finalPathOf (p : Str) : Str :=
  if (bucketName ++ lit "/").isPrefixOf (cleanPathOf p) then cleanPathOf p
  else bucketName ++ lit "/" ++ cleanPathOf p

def buildPhotoUrlStr (p : Str) : Str :=
  if p = [] then []
  else supabaseUrl ++ lit "/storage/v1/object/public/" ++ finalPathOf p

def buildPhotoUrl (photoPath : Option Str) : Str :=
  match photoPath with
  | none => []
  | some p => buildPhotoUrlStr p

/-- Embedding of `isValidPhotoUrl` (Students.tsx lines 131-133):
`!!url && (url.startsWith('http://') || url.startsWith('https://'))`. -/
def isValidPhotoUrl (url : Option Str) : Bool :=
  match url with
  | none => false
  | some u => !u.isEmpty && ((lit "http://").isPrefixOf u || (lit "https://").isPrefixOf u)

/-- Embedding of `getAvatarUrlDirect` (Students.tsx lines 309-312): returns
`null` when the student's `photoPath` is JS-falsy, otherwise
`buildPhotoUrl(photoPath)`. -/
def getAvatarUrlDirect (s : Student) : Option Str :=
  match s.photoPath with
  | none => none
  | some p => if p = [] then none else some (buildPhotoUrl (some p))

/-- Definition following the claim's words for C10: the fixed base URL,
then `/storage/v1/object/public/`, then `ssis_web_bucket/`, then the path
with a leading `/` stripped — except that a path already beginning with
`ssis_web_bucket/` is not prefixed again. -/
def buildPhotoUrlSpec (p : Str) : Str :=
  if (lit "ssis_web_bucket/").isPrefixOf (cleanPathOf p) then
    lit "https://iwmcuzrymhjltvrgddpe.supabase.co" ++ lit "/storage/v1/object/public/" ++
      cleanPathOf p
  else
    lit "https://iwmcuzrymhjltvrgddpe.supabase.co" ++ lit "/storage/v1/object/public/" ++
      (lit "ssis_web_bucket/" ++ cleanPathOf p)

/-! ## Avatar file validation (Students.tsx lines 49-63) -/

/-- The allow-list of image MIME types (`allowedTypes`, Students.tsx line 57). -/
def allowedTypes : List Str :=
  [lit "image/jpeg", lit "image/jpg", lit "image/png", lit "image/gif",
   lit "image/webp", lit "image/svg+xml"]

/-- The size cap (`maxSize = 5 * 1024 * 1024`, Students.tsx line 51). -/
def maxAvatarSize : Nat := 5 * 1024 * 1024

def sizeErrMsg : Str :=
  lit "File size exceeds 5MB limit. Please select a smaller image."

def typeErrMsg : Str :=
  lit "Only image files (JPEG, PNG, GIF, WebP, SVG) are allowed. PDF and other document formats are not supported."

/-- Embedding of `validateAvatarFile` (Students.tsx lines 49-63): size is
checked first against the 5 MB cap, then the MIME type against the
allow-list; `none` means the file passes. -/
def validateAvatarFile (file : FileModel) : Option Str :=
  if file.size > maxAvatarSize then some sizeErrMsg
  else if !(allowedTypes.contains file.type) then some typeErrMsg
  else none

/-! ## Student draft validation (Students.tsx lines 34-35, 66-96) -/

/-- A partially filled form (`Partial<Student>`): every field may be absent. -/
structure Draft where
  id : Option Str
  firstName : Option Str
  lastName : Option Str
  yearLevel : Option Nat
  gender : Option Gender
  college : Option Str
  program : Option Str
deriving DecidableEq

def isDigitChar (c : Char) : Bool := decide ('0' ≤ c) && decide (c ≤ '9')

/-- Test of `ID_REGEX = /^\d{4}-\d{4}$/` (Students.tsx line 34). -/
def idRegexTest (s : Str) : Bool :=
  match s with
  | [a, b, c, d, e, f, g, h, i] =>
    isDigitChar a && isDigitChar b && isDigitChar c && isDigitChar d &&
    (e == '-') && isDigitChar f && isDigitChar g && isDigitChar h && isDigitChar i
  | _ => false

/-- JavaScript whitespace class `\s`, restricted to the ASCII whitespace
characters (space, tab, newline, vertical tab, form feed, carriage return). -/
def isSpaceChar (c : Char) : Bool :=
  c == ' ' || c == Char.ofNat 9 || c == Char.ofNat 10 || c == Char.ofNat 11 ||
  c == Char.ofNat 12 || c == Char.ofNat 13

/-- Character class of `NAME_REGEX = /^[A-Za-z\s'-]+$/` (Students.tsx line 35):
letters, whitespace, apostrophe (`Char.ofNat 39`), hyphen. -/
def isNameChar (c : Char) : Bool :=
  c.isAlpha || isSpaceChar c || c == Char.ofNat 39 || c == '-'

/-- Test of `NAME_REGEX`: non-empty and every character in the class. -/
def nameRegexTest (s : Str) : Bool := !s.isEmpty && s.all isNameChar

def errMsgId : Str := lit "ID must be in YYYY-NNNN format (e.g., 2025-0001)."
def errMsgFirstName : Str := lit "First Name must contain letters only."
def errMsgLastName : Str := lit "Last Name must contain letters only."
def errMsgYearLevel : Str := lit "Year Level must be 1-4."
def errMsgGender : Str := lit "Gender is required."
def errMsgCollege : Str := lit "College is required."
def errMsgProgram : Str := lit "Program is required."
def errMsgPhotoRequired : Str := lit "A photo is required to create a student."

/-- The photo-related error entries of `validateStudentDraft`: for creation a
missing file is an error and a selected file is validated; for updates a
selected file is validated and a missing one is fine (Students.tsx 76-93). -/
def photoErrors (isCreation : Bool) (selectedFile : Option FileModel) : List Str :=
  if isCreation then
    match selectedFile with
    | none => [errMsgPhotoRequired]
    | some f =>
      match validateAvatarFile f with
      | some msg => [lit "Photo: " ++ msg]
      | none => []
  else
    match selectedFile with
    | some f =>
      match validateAvatarFile f with
      | some msg => [lit "Photo: " ++ msg]
      | none => []
    | none => []

/-- Embedding of `validateStudentDraft` (Students.tsx lines 66-96). Each
check pushes its message in source order; a JS-falsy field (`undefined`,
`''`, `0`) fails its check. -/
def validateStudentDraft (draft : Draft) (isCreation : Bool)
    (selectedFile : Option FileModel) : List Str :=
  (match draft.id with
   | some s => if idRegexTest s then [] else [errMsgId]
   | none => [errMsgId]) ++
  (match draft.firstName with
   | some s => if nameRegexTest s then [] else [errMsgFirstName]
   | none => [errMsgFirstName]) ++
  (match draft.lastName with
   | some s => if nameRegexTest s then [] else [errMsgLastName]
   | none => [errMsgLastName]) ++
  (match draft.yearLevel with
   | some y => if 1 ≤ y ∧ y ≤ 4 then [] else [errMsgYearLevel]
   | none => [errMsgYearLevel]) ++
  (match draft.gender with
   | some _ => []
   | none => [errMsgGender]) ++
  (match draft.college with
   | some s => if s = [] then [errMsgCollege] else []
   | none => [errMsgCollege]) ++
  (match draft.program with
   | some s => if s = [] then [errMsgProgram] else []
   | none => [errMsgProgram]) ++
  photoErrors isCreation selectedFile

/-! ## Creation orchestration `onAdd` (Students.tsx lines 385-433)

The outcomes of the three remote calls (`createStudent`,
`uploadAvatarFile` inside `handleAvatarUpload`, `deleteStudent`) are
supplied by an environment; the relational store is abstracted to the list
of existing student ids. -/

structure AddEnv where
  /-- Whether `createStudent` succeeds. -/
  createOk : Bool
  /-- The alert message used when `createStudent` throws
  (`error.message || error.response.data.message || 'Failed to create student'`). -/
  createErrMsg : Str
  /-- Whether `uploadAvatarFile` (authorize + PUT + confirm) succeeds. -/
  uploadOk : Bool
  /-- Whether the compensating `deleteStudent` succeeds. -/
  deleteOk : Bool
deriving DecidableEq

structure AddResult where
  /-- Ids present in the store afterward. -/
  db : List Str
  /-- Whether `createStudent` was invoked. -/
  createCalled : Bool
  /-- Whether `uploadAvatarFile` was invoked (it performs the upload
  authorization request as its first step). -/
  uploadCalled : Bool
  /-- Whether the compensating `deleteStudent` was invoked. -/
  deleteCalled : Bool
  /-- The `alert` messages shown, in order. -/
  alerts : List Str
deriving DecidableEq

def rolledBackMsg : Str :=
  lit "Student creation failed: Avatar upload failed. Student record deleted."

def partialFailureMsg : Str :=
  lit "Student creation failed: Avatar upload failed. Student record was created but avatar upload failed."

def createdMsg : Str := lit "Student created successfully!"

def defaultCreateErrMsg : Str := lit "Failed to create student"

/-- Embedding of `onAdd` (Students.tsx lines 385-433). Validation failure
alerts the joined errors and performs no remote call. Otherwise the student
is created; `handleAvatarUpload` returns `false` when no file is selected
and otherwise reports the upload outcome; on upload failure the
just-created row is deleted (compensation), and a failing compensation is
reported with its own distinct message while the row remains. -/
def onAdd (draft : Draft) (selectedFile : Option FileModel) (env : AddEnv)
    (db : List Str) : AddResult :=
  if validateStudentDraft draft true selectedFile = [] then
    if env.createOk then
      if selectedFile.isSome && env.uploadOk then
        ⟨db ++ [draft.id.getD []], true, true, false, [createdMsg]⟩
      else
        if env.deleteOk then
          ⟨(db ++ [draft.id.getD []]).erase (draft.id.getD []), true,
            selectedFile.isSome, true, [rolledBackMsg]⟩
        else
          ⟨db ++ [draft.id.getD []], true, selectedFile.isSome, true,
            [partialFailureMsg]⟩
    else
      ⟨db, true, false, false, [env.createErrMsg]⟩
  else
    ⟨db, false, false, false,
      [List.intercalate (lit "\n") (validateStudentDraft draft true selectedFile)]⟩

/-! ## Update orchestration `onUpdate` (Students.tsx lines 435-511) -/

structure UpdateEnv where
  /-- Whether `updateStudent` succeeds. -/
  updateOk : Bool
  /-- The alert message used when `updateStudent` throws. -/
  updateErrMsg : Str
  /-- Whether `uploadAvatarFile` succeeds. -/
  uploadOk : Bool
deriving DecidableEq

structure UpdateResult where
  /-- Whether `updateStudent` was invoked. -/
  updateCalled : Bool
  /-- Whether `uploadAvatarFile` was invoked. -/
  uploadCalled : Bool
  /-- The `alert` messages shown, in order. -/
  alerts : List Str
deriving DecidableEq

/-- The changed-field computation of `onUpdate` (Students.tsx lines 454-467):
true when at least one field would be sent to `updateStudent`. -/
def draftChanges (orig : Student) (draft : Draft) : Bool :=
  (match draft.id with
   | some s => !s.isEmpty && s ≠ orig.id
   | none => false) ||
  (match draft.firstName with
   | some s => !s.isEmpty && s ≠ orig.firstName
   | none => false) ||
  (match draft.lastName with
   | some s => !s.isEmpty && s ≠ orig.lastName
   | none => false) ||
  (match draft.yearLevel with
   | some y => y ≠ orig.yearLevel
   | none => false) ||
  (match draft.gender with
   | some g => g ≠ orig.gender
   | none => false) ||
  (match draft.college with
   | some s => !s.isEmpty && s ≠ orig.college
   | none => false) ||
  (match draft.program with
   | some s => !s.isEmpty && s ≠ orig.program
   | none => false)

def noChangesMsg : Str := lit "No changes to update"
def updatedMsg : Str := lit "Student updated successfully!"
def dataUpdatedAvatarFailedMsg : Str := lit "Student data updated but avatar upload failed"
def avatarFailedMsg : Str := lit "Avatar upload failed"

/-- Embedding of `onUpdate` (Students.tsx lines 435-511) for a selected
original row: validation (non-creation mode) gates every remote call; with
no changed field and no file the function bails out; `updateStudent` runs
only when a field changed; a selected file is then uploaded, with the two
distinct failure alerts of the source. -/
def onUpdate (orig : Student) (draft : Draft) (selectedFile : Option FileModel)
    (env : UpdateEnv) : UpdateResult :=
  if validateStudentDraft draft false selectedFile = [] then
    if !draftChanges orig draft && selectedFile.isNone then
      ⟨false, false, [noChangesMsg]⟩
    else
      if draftChanges orig draft && !env.updateOk then
        ⟨true, false, [env.updateErrMsg]⟩
      else
        match selectedFile with
        | none => ⟨draftChanges orig draft, false, [updatedMsg]⟩
        | some _ =>
          if env.uploadOk then
            ⟨draftChanges orig draft, true, [updatedMsg]⟩
          else
            if draftChanges orig draft then
              ⟨true, true, [dataUpdatedAvatarFailedMsg]⟩
            else
              ⟨false, true, [avatarFailedMsg]⟩
  else
    ⟨false, false,
      [List.intercalate (lit "\n") (validateStudentDraft draft false selectedFile)]⟩

/-! ## Client upload flow `uploadAvatarFile` (src/unnamed/part_003 lines 104-120)

The helper asks the backend for a signed upload URL, PUTs the file bytes
to that URL directly (with `withCredentials: false`, so no session cookie
is sent), then confirms with the `avatar_path` the authorization returned.
The embedding records the protocol steps the client performs, in order,
together with the overall success flag; the three remote calls are supplied
by an environment. -/

/-- The `{ upload_url, avatar_path, expires_in }` payload returned by
`getPhotoUploadUrl` (part_003 lines 75-82). -/
structure AuthResponse where
  upload_url : Str
  avatar_path : Str
  expires_in : Nat
deriving DecidableEq

/-- One observable protocol step of the client flow. -/
inductive ProtocolStep where
  | authorize (sid filename contentType : Str)
  | putBytes (url : Str) (withCredentials : Bool)
  | confirm (sid path : Str)
deriving DecidableEq

structure ClientEnv where
  /-- Response of `getPhotoUploadUrl`; `none` models a thrown request. -/
  authorizeResp : Str → Str → Str → Option AuthResponse
  /-- Whether the direct PUT to the given URL succeeds. -/
  putOk : Str → Bool
  /-- Whether `confirmAvatarUpload` succeeds. -/
  confirmOk : Str → Str → Bool

/-- The content type sent: `file.type || 'image/jpeg'` (part_003 line 106). -/
def contentTypeOf (file : FileModel) : Str :=
  if file.type = [] then lit "image/jpeg" else file.type

/-- Embedding of `uploadAvatarFile` (part_003 lines 105-120): authorize,
then PUT to the returned `upload_url` without credentials, then confirm
with the returned `avatar_path`; a thrown step aborts the rest. -/
def uploadAvatarFile (env : ClientEnv) (sid : Str) (file : FileModel) :
    List ProtocolStep × Bool :=
  match env.authorizeResp sid file.name (contentTypeOf file) with
  | none => ([ProtocolStep.authorize sid file.name (contentTypeOf file)], false)
  | some u =>
    if env.putOk u.upload_url then
      ([ProtocolStep.authorize sid file.name (contentTypeOf file),
        ProtocolStep.putBytes u.upload_url false,
        ProtocolStep.confirm sid u.avatar_path],
       env.confirmOk sid u.avatar_path)
    else
      ([ProtocolStep.authorize sid file.name (contentTypeOf file),
        ProtocolStep.putBytes u.upload_url false], false)

/-! ## Storage Gateway and Upload Confirmation Handler (spec-modelled)

The backend that implements these endpoints is not part of the sources
provided under src/ (only its frontend callers in part_003 are), so the
definitions below are modelled from the spec, sections 4.1, 4.2 and 5. -/

/-- Modelled from the spec: the error taxonomy of section 7 restricted to
the synchronous rejections the claims mention. -/
inductive StorageError where
  | NotFound
  | InvalidArgument
deriving DecidableEq

/-- Modelled from the spec: server-side state — each student's nullable
avatar pointer, plus the object paths scheduled for deletion so far. -/
structure AvatarState where
  students : List (Str × Option Str)
  deleted : List Str
deriving DecidableEq

/-- Lookup of a student's avatar pointer; `none` means no such student. -/
def getPath (sid : Str) : List (Str × Option Str) → Option (Option Str)
  | [] => none
  | (k, w) :: rest => if k = sid then some w else getPath sid rest

/-- Pointwise update of a student's avatar pointer. -/
def setPath (sid : Str) (v : Option Str) :
    List (Str × Option Str) → List (Str × Option Str)
  | [] => []
  | (k, w) :: rest =>
    if k = sid then (k, v) :: setPath sid v rest else (k, w) :: setPath sid v rest

/-- Modelled from the spec: sanitized filename — only word characters,
dots and dashes survive (section 4.1: "a sanitized filename"). -/
def sanitizeFilename (fn : Str) : Str :=
  fn.filter (fun c => c.isAlphanum || c == '.' || c == '-' || c == '_')

/-- Modelled from the spec: the per-student directory of the object path,
derived deterministically from `studentId` (section 3, UploadAuthorization). -/
def pathRoot (sid : Str) : Str := lit "avatars/" ++ sid ++ lit "/"

/-- Modelled from the spec: `objectPath` as a function of `studentId` and
the sanitized filename (section 4.1). -/
def pathFor (sid fn : Str) : Str := pathRoot sid ++ sanitizeFilename fn

/-- Modelled from the spec: the confirmation-time ownership check —
re-derive the expected per-student path root and compare (section 4.2). -/
def pathBelongsTo (sid p : Str) : Bool := (pathRoot sid).isPrefixOf p

/-- Modelled from the spec: the signed single-write URL for a path. -/
def signedUploadUrlFor (p : Str) : Str := lit "https://storage.example/sign/" ++ p

/-- Modelled from the spec: the authorization payload
`{uploadUrl, objectPath, expiresInSeconds}` (section 4.1). -/
structure UploadAuth where
  uploadUrl : Str
  objectPath : Str
  expiresInSeconds : Nat
deriving DecidableEq

/-- Modelled from the spec: `createUploadAuthorization` (section 4.1) —
`NotFound` for an unknown student, `InvalidArgument` for a content type
outside the allow-list, otherwise a time-boxed authorization for the
deterministic path; no relational-store side effect. -/
def createUploadAuthorization (sid fn ct : Str) (st : AvatarState) :
    Except StorageError UploadAuth :=
  match getPath sid st.students with
  | none => Except.error StorageError.NotFound
  | some _ =>
    if ct ∈ allowedTypes then
      Except.ok ⟨signedUploadUrlFor (pathFor sid fn), pathFor sid fn, 600⟩
    else
      Except.error StorageError.InvalidArgument

/-- The superseded object scheduled for deletion by a confirmation: the old
path when it exists and differs from the new one (spec section 4.2). -/
def supersededOf (old : Option Str) (newPath : Str) : List Str :=
  match old with
  | some oldPath => if oldPath = newPath then [] else [oldPath]
  | none => []

/-- Modelled from the spec: `confirmUpload` (section 4.2) — `NotFound` for
an unknown student, `InvalidArgument` when the path does not re-derive from
this `studentId`; otherwise the new path is written and a previously held
different path is scheduled for deletion (best-effort). -/
def confirmUpload (sid objectPath : Str) (st : AvatarState) :
    Except StorageError AvatarState :=
  match getPath sid st.students with
  | none => Except.error StorageError.NotFound
  | some old =>
    if pathBelongsTo sid objectPath then
      Except.ok ⟨setPath sid (some objectPath) st.students,
                 st.deleted ++ supersededOf old objectPath⟩
    else
      Except.error StorageError.InvalidArgument

/-! ## Helper lemmas about list prefixes -/

lemma isPrefixOf_append_left {p l : Str} (h : p.isPrefixOf l = true) (m : Str) :
    p.isPrefixOf (l ++ m) = true := by
  rw [List.isPrefixOf_iff_prefix] at h ⊢
  exact h.trans (l.prefix_append m)

lemma supabase_starts_https (m : Str) :
    (lit "https://").isPrefixOf (supabaseUrl ++ m) = true :=
  isPrefixOf_append_left (by decide) m

lemma supabase_append_ne_nil (m : Str) : (supabaseUrl ++ m) ≠ [] := by
  intro h
  rw [List.append_eq_nil] at h
  exact absurd h.1 (by decide)

lemma buildPhotoUrl_valid (p : Str) (hp : p ≠ []) :
    isValidPhotoUrl (some (buildPhotoUrl (some p))) = true := by
  show (!(buildPhotoUrlStr p).isEmpty &&
      ((lit "http://").isPrefixOf (buildPhotoUrlStr p) ||
        (lit "https://").isPrefixOf (buildPhotoUrlStr p))) = true
  unfold buildPhotoUrlStr
  rw [if_neg hp]
  rw [List.append_assoc]
  simp only [Bool.and_eq_true, Bool.or_eq_true]
  constructor
  · rw [Bool.not_eq_true', List.isEmpty_eq_false]
    exact supabase_append_ne_nil _
  · exact Or.inr (supabase_starts_https _)

/-! ## Claim theorems C2 and C10 -/

/-- C2: resolving the display URL of a `null` objectPath returns `null`, and
resolving any valid (non-empty) stored objectPath returns a non-empty,
well-formed URL string (it starts with `https://`, so `isValidPhotoUrl`
accepts it). -/
theorem resolveDisplayUrl_spec (s : Student) :
    (s.photoPath = none → getAvatarUrlDirect s = none) ∧
    (∀ p, s.photoPath = some p → p ≠ [] →
      getAvatarUrlDirect s = some (buildPhotoUrl (some p)) ∧
      buildPhotoUrl (some p) ≠ [] ∧
      isValidPhotoUrl (some (buildPhotoUrl (some p))) = true) := by
  constructor
  · intro h
    unfold getAvatarUrlDirect
    rw [h]
  · intro p hp hne
    refine ⟨?_, ?_, buildPhotoUrl_valid p hne⟩
    · unfold getAvatarUrlDirect
      rw [hp]
      simp [hne]
    · show buildPhotoUrlStr p ≠ []
      unfold buildPhotoUrlStr
      rw [if_neg hne, List.append_assoc]
      exact supabase_append_ne_nil _

theorem resolveDisplayUrl_spec_witness :
    getAvatarUrlDirect ⟨lit "2025-0001", lit "John", lit "Doe", 1, Gender.Male,
        lit "CCS", lit "BSCS", some (lit "avatars/2025-0001/photo.jpg")⟩ =
      some (buildPhotoUrl (some (lit "avatars/2025-0001/photo.jpg"))) ∧
    isValidPhotoUrl (some (buildPhotoUrl (some (lit "avatars/2025-0001/photo.jpg")))) = true := by
  have h := resolveDisplayUrl_spec ⟨lit "2025-0001", lit "John", lit "Doe", 1, Gender.Male,
        lit "CCS", lit "BSCS", some (lit "avatars/2025-0001/photo.jpg")⟩
  have h2 := h.2 (lit "avatars/2025-0001/photo.jpg") rfl (by decide)
  exact ⟨h2.1, h2.2.2⟩

/-- C10: `buildPhotoUrl` normalizes its input so the bucket prefix is added
exactly when absent: for every non-empty photoPath the result equals the
base URL + `/storage/v1/object/public/` + `ssis_web_bucket/` + the path with
a leading `/` stripped, except that a path already beginning with
`ssis_web_bucket/` is not prefixed again; `isValidPhotoUrl` accepts the
result for every non-empty path; and a `null`, `undefined`, or empty path
yields the empty string. -/
theorem buildPhotoUrl_normalizes :
    (∀ p : Str, p ≠ [] →
      buildPhotoUrl (some p) = buildPhotoUrlSpec p ∧
      isValidPhotoUrl (some (buildPhotoUrl (some p))) = true) ∧
    buildPhotoUrl none = [] ∧ buildPhotoUrl (some []) = [] := by
  refine ⟨?_, rfl, rfl⟩
  intro p hp
  refine ⟨?_, buildPhotoUrl_valid p hp⟩
  show buildPhotoUrlStr p = buildPhotoUrlSpec p
  have hb : bucketName ++ lit "/" = lit "ssis_web_bucket/" := by decide
  have hs : supabaseUrl = lit "https://iwmcuzrymhjltvrgddpe.supabase.co" := by decide
  unfold buildPhotoUrlStr buildPhotoUrlSpec finalPathOf
  rw [if_neg hp, hb, hs]
  split <;> rfl

lemma getPath_setPath (sid : Str) (v : Option Str) (l : List (Str × Option Str)) :
    getPath sid (setPath sid v l) = (getPath sid l).map (fun _ => v) := by
  induction l with
  | nil => rfl
  | cons kv rest ih =>
    obtain ⟨k, w⟩ := kv
    by_cases hk : k = sid
    · simp [setPath, getPath, hk]
    · simp [setPath, getPath, hk, ih]

lemma setPath_setPath (sid : Str) (v : Option Str) (l : List (Str × Option Str)) :
    setPath sid v (setPath sid v l) = setPath sid v l := by
  induction l with
  | nil => rfl
  | cons kv rest ih =>
    obtain ⟨k, w⟩ := kv
    by_cases hk : k = sid
    · simp [setPath, hk, ih]
    · simp [setPath, hk, ih]

lemma pathRoot_isPrefixOf_pathFor (sid fn : Str) :
    pathBelongsTo sid (pathFor sid fn) = true := by
  unfold pathBelongsTo pathFor
  rw [List.isPrefixOf_iff_prefix]
  exact (pathRoot sid).prefix_append (sanitizeFilename fn)

lemma oversize_validateAvatarFile (f : FileModel) (hf : f.size > maxAvatarSize) :
    validateAvatarFile f = some sizeErrMsg := by
  simp [validateAvatarFile, hf]

lemma oversize_draft_errors (draft : Draft) (b : Bool) (f : FileModel)
    (hf : f.size > maxAvatarSize) :
    validateStudentDraft draft b (some f) ≠ [] := by
  have hpe : photoErrors b (some f) = [lit "Photo: " ++ sizeErrMsg] := by
    cases b <;> simp [photoErrors, oversize_validateAvatarFile f hf]
  intro h
  simp [validateStudentDraft, hpe] at h

/-- Shared concrete inputs used by the witnesses. -/
def draft0 : Draft :=
  ⟨some (lit "2025-0001"), some (lit "John"), some (lit "Doe"), some 1,
   some Gender.Male, some (lit "CCS"), some (lit "BSCS")⟩

def file0 : FileModel := ⟨lit "photo.jpg", 1000, lit "image/jpeg"⟩

/-! ## Claim theorems -/

/-- C1: when the student-record insert succeeds but the avatar
upload/confirmation step fails, `onAdd` invokes the compensating
`deleteStudent` on the just-created row, and (the delete succeeding) the
student does not exist afterward. -/
theorem creation_rolls_back (draft : Draft) (file : Option FileModel)
    (env : AddEnv) (db : List Str)
    (hv : validateStudentDraft draft true file = [])
    (hc : env.createOk = true) (hu : env.uploadOk = false)
    (hd : env.deleteOk = true) (hfresh : draft.id.getD [] ∉ db) :
    (onAdd draft file env db).deleteCalled = true ∧
    (onAdd draft file env db).db = db ∧
    draft.id.getD [] ∉ (onAdd draft file env db).db := by
  have hdb : (db ++ [draft.id.getD []]).erase (draft.id.getD []) = db := by
    rw [List.erase_append_right _ hfresh, List.erase_cons_head, List.append_nil]
  simp [onAdd, hv, hc, hu, hd, hdb, hfresh]

theorem creation_rolls_back_witness :
    (onAdd draft0 (some file0) ⟨true, defaultCreateErrMsg, false, true⟩ []).deleteCalled = true ∧
    (onAdd draft0 (some file0) ⟨true, defaultCreateErrMsg, false, true⟩ []).db = [] ∧
    draft0.id.getD [] ∉ (onAdd draft0 (some file0) ⟨true, defaultCreateErrMsg, false, true⟩ []).db := by
  have h := creation_rolls_back draft0 (some file0) ⟨true, defaultCreateErrMsg, false, true⟩ []
    (by decide) rfl rfl rfl (by decide)
  exact h

/-- C8: when the compensating delete itself fails, `onAdd` surfaces the
dedicated partial-failure message — distinct from the rolled-back, the
success, and the default creation-failure messages — and the student row
still exists, so the caller can tell the inconsistent state apart. -/
theorem rollback_failure_surfaced (draft : Draft) (file : Option FileModel)
    (env : AddEnv) (db : List Str)
    (hv : validateStudentDraft draft true file = [])
    (hc : env.createOk = true) (hu : env.uploadOk = false)
    (hd : env.deleteOk = false) :
    (onAdd draft file env db).alerts = [partialFailureMsg] ∧
    draft.id.getD [] ∈ (onAdd draft file env db).db ∧
    partialFailureMsg ≠ rolledBackMsg ∧
    partialFailureMsg ≠ createdMsg ∧
    partialFailureMsg ≠ defaultCreateErrMsg := by
  refine ⟨?_, ?_, by decide, by decide, by decide⟩
  · simp [onAdd, hv, hc, hu, hd]
  · simp [onAdd, hv, hc, hu, hd]

theorem rollback_failure_surfaced_witness :
    (onAdd draft0 (some file0) ⟨true, defaultCreateErrMsg, false, false⟩ []).alerts =
      [partialFailureMsg] ∧
    draft0.id.getD [] ∈ (onAdd draft0 (some file0) ⟨true, defaultCreateErrMsg, false, false⟩ []).db ∧
    partialFailureMsg ≠ rolledBackMsg := by
  have h := rollback_failure_surfaced draft0 (some file0)
    ⟨true, defaultCreateErrMsg, false, false⟩ [] (by decide) rfl rfl rfl
  exact ⟨h.1, h.2.1, h.2.2.1⟩

/-- C3: `confirmUpload` is idempotent — a second call with the same
`(studentId, objectPath)` on the state the first call produced is a no-op
success returning that very state, so no side effect (in particular no
scheduled deletion) happens twice. -/
theorem confirmUpload_idempotent (sid p : Str) (st st' : AvatarState)
    (h : confirmUpload sid p st = Except.ok st') :
    confirmUpload sid p st' = Except.ok st' := by
  cases hg : getPath sid st.students with
  | none => simp [confirmUpload, hg] at h
  | some old =>
    by_cases hb : pathBelongsTo sid p
    · simp only [confirmUpload, hg, hb, if_true, Except.ok.injEq] at h
      subst h
      have hgp : getPath sid (setPath sid (some p) st.students) = some (some p) := by
        rw [getPath_setPath, hg]; rfl
      simp [confirmUpload, hgp, hb, supersededOf, setPath_setPath]
    · simp [confirmUpload, hg, hb] at h

theorem confirmUpload_idempotent_witness :
    confirmUpload (lit "2025-0001") (lit "avatars/2025-0001/photo.jpg")
        ⟨[(lit "2025-0001", none)], []⟩ =
      Except.ok ⟨[(lit "2025-0001", some (lit "avatars/2025-0001/photo.jpg"))], []⟩ ∧
    confirmUpload (lit "2025-0001") (lit "avatars/2025-0001/photo.jpg")
        ⟨[(lit "2025-0001", some (lit "avatars/2025-0001/photo.jpg"))], []⟩ =
      Except.ok ⟨[(lit "2025-0001", some (lit "avatars/2025-0001/photo.jpg"))], []⟩ :=
  ⟨by rfl,
   confirmUpload_idempotent (lit "2025-0001") (lit "avatars/2025-0001/photo.jpg")
     ⟨[(lit "2025-0001", none)], []⟩
     ⟨[(lit "2025-0001", some (lit "avatars/2025-0001/photo.jpg"))], []⟩ (by rfl)⟩

/-- C4: for an existing student and an allow-listed content type,
`createUploadAuthorization` returns the deterministic object path for that
student (and re-deriving the expected per-student path from the studentId
matches it), while `confirmUpload` rejects any path that does not re-derive
from the claimed studentId with `InvalidArgument`. -/
theorem authorization_roundtrip (sid fn ct p : Str) (st : AvatarState)
    (old : Option Str)
    (hex : getPath sid st.students = some old) (hct : ct ∈ allowedTypes)
    (hmis : pathBelongsTo sid p = false) :
    createUploadAuthorization sid fn ct st =
      Except.ok ⟨signedUploadUrlFor (pathFor sid fn), pathFor sid fn, 600⟩ ∧
    pathBelongsTo sid (pathFor sid fn) = true ∧
    confirmUpload sid p st = Except.error StorageError.InvalidArgument := by
  refine ⟨?_, pathRoot_isPrefixOf_pathFor sid fn, ?_⟩
  · simp [createUploadAuthorization, hex, hct]
  · simp [confirmUpload, hex, hmis]

theorem authorization_roundtrip_witness :
    createUploadAuthorization (lit "2025-0001") (lit "photo.jpg") (lit "image/jpeg")
        ⟨[(lit "2025-0001", none)], []⟩ =
      Except.ok ⟨signedUploadUrlFor (pathFor (lit "2025-0001") (lit "photo.jpg")),
                 pathFor (lit "2025-0001") (lit "photo.jpg"), 600⟩ ∧
    pathBelongsTo (lit "2025-0001") (pathFor (lit "2025-0001") (lit "photo.jpg")) = true ∧
    confirmUpload (lit "2025-0001") (lit "avatars/2025-0002/evil.png")
        ⟨[(lit "2025-0001", none)], []⟩ =
      Except.error StorageError.InvalidArgument :=
  authorization_roundtrip (lit "2025-0001") (lit "photo.jpg") (lit "image/jpeg")
    (lit "avatars/2025-0002/evil.png") ⟨[(lit "2025-0001", none)], []⟩ none
    rfl (by decide) (by decide)

/-- C5: a content type outside the image allow-list is rejected with
`InvalidArgument` by `createUploadAuthorization`, any issued authorization
has an allow-listed content type, an allow-listed type passes this check,
and the client-side `validateAvatarFile` also rejects a non-allow-listed
type. -/
theorem contentType_allowlist (sid fn ct : Str) (st : AvatarState)
    (old : Option Str) (f : FileModel)
    (hex : getPath sid st.students = some old) :
    (ct ∉ allowedTypes →
      createUploadAuthorization sid fn ct st = Except.error StorageError.InvalidArgument) ∧
    (ct ∈ allowedTypes →
      createUploadAuthorization sid fn ct st =
        Except.ok ⟨signedUploadUrlFor (pathFor sid fn), pathFor sid fn, 600⟩) ∧
    (∀ (st2 : AvatarState) (auth : UploadAuth) (sid2 fn2 ct2 : Str),
      createUploadAuthorization sid2 fn2 ct2 st2 = Except.ok auth →
      ct2 ∈ allowedTypes) ∧
    (f.type ∉ allowedTypes → validateAvatarFile f ≠ none) := by
  refine ⟨?_, ?_, ?_, ?_⟩
  · intro hct
    simp [createUploadAuthorization, hex, hct]
  · intro hct
    simp [createUploadAuthorization, hex, hct]
  · intro st2 auth sid2 fn2 ct2 h
    unfold createUploadAuthorization at h
    cases hg : getPath sid2 st2.students with
    | none => rw [hg] at h; exact Except.noConfusion h
    | some o =>
      rw [hg] at h
      by_cases hm : ct2 ∈ allowedTypes
      · exact hm
      · rw [if_neg hm] at h; exact Except.noConfusion h
  · intro hct
    by_cases hs : f.size > maxAvatarSize
    · simp [validateAvatarFile, hs]
    · simp [validateAvatarFile, hs, hct]

theorem contentType_allowlist_witness :
    createUploadAuthorization (lit "2025-0001") (lit "doc.pdf") (lit "application/pdf")
        ⟨[(lit "2025-0001", none)], []⟩ =
      Except.error StorageError.InvalidArgument ∧
    validateAvatarFile ⟨lit "doc.pdf", 1000, lit "application/pdf"⟩ ≠ none := by
  have h := contentType_allowlist (lit "2025-0001") (lit "doc.pdf")
    (lit "application/pdf") ⟨[(lit "2025-0001", none)], []⟩ none
    ⟨lit "doc.pdf", 1000, lit "application/pdf"⟩ rfl
  exact ⟨h.1 (by decide), h.2.2.2 (by decide)⟩

/-- C6: confirming a new path `p2` for a student currently holding a
different path `p1` writes `p2` as the single stored pointer and schedules
`p1` for deletion, so exactly one live object path remains for the
student. -/
theorem confirmUpload_supersedes (sid p1 p2 : Str) (st : AvatarState)
    (hold : getPath sid st.students = some (some p1))
    (hb : pathBelongsTo sid p2 = true) (hne : p1 ≠ p2) :
    confirmUpload sid p2 st =
      Except.ok ⟨setPath sid (some p2) st.students, st.deleted ++ [p1]⟩ ∧
    getPath sid (setPath sid (some p2) st.students) = some (some p2) ∧
    p1 ∈ st.deleted ++ [p1] := by
  refine ⟨?_, ?_, by simp⟩
  · simp [confirmUpload, hold, hb, supersededOf, hne]
  · rw [getPath_setPath, hold]; rfl

theorem confirmUpload_supersedes_witness :
    confirmUpload (lit "2025-0001") (lit "avatars/2025-0001/new.jpg")
        ⟨[(lit "2025-0001", some (lit "avatars/2025-0001/old.jpg"))], []⟩ =
      Except.ok ⟨setPath (lit "2025-0001") (some (lit "avatars/2025-0001/new.jpg"))
                   [(lit "2025-0001", some (lit "avatars/2025-0001/old.jpg"))],
                 [] ++ [lit "avatars/2025-0001/old.jpg"]⟩ ∧
    getPath (lit "2025-0001")
        (setPath (lit "2025-0001") (some (lit "avatars/2025-0001/new.jpg"))
          [(lit "2025-0001", some (lit "avatars/2025-0001/old.jpg"))]) =
      some (some (lit "avatars/2025-0001/new.jpg")) ∧
    lit "avatars/2025-0001/old.jpg" ∈ ([] : List Str) ++ [lit "avatars/2025-0001/old.jpg"] :=
  confirmUpload_supersedes (lit "2025-0001") (lit "avatars/2025-0001/old.jpg")
    (lit "avatars/2025-0001/new.jpg")
    ⟨[(lit "2025-0001", some (lit "avatars/2025-0001/old.jpg"))], []⟩
    rfl (by decide) (by decide)

/-- C7: the client upload flow performs authorize, then the direct PUT to
the returned signed `upload_url` with `withCredentials = false`, then the
confirmation, in that order, and the path passed to the confirmation step
equals exactly the `avatar_path` returned by the authorization step. -/
theorem uploadAvatarFile_protocol (env : ClientEnv) (sid : Str)
    (file : FileModel) (u : AuthResponse)
    (ha : env.authorizeResp sid file.name (contentTypeOf file) = some u)
    (hput : env.putOk u.upload_url = true) :
    (uploadAvatarFile env sid file).1 =
      [ProtocolStep.authorize sid file.name (contentTypeOf file),
       ProtocolStep.putBytes u.upload_url false,
       ProtocolStep.confirm sid u.avatar_path] := by
  simp [uploadAvatarFile, ha, hput]

theorem uploadAvatarFile_protocol_witness :
    (uploadAvatarFile
        ⟨fun _ _ _ => some ⟨lit "https://signed.example/u", lit "avatars/2025-0001/p.jpg", 600⟩,
         fun _ => true, fun _ _ => true⟩
        (lit "2025-0001") file0).1 =
      [ProtocolStep.authorize (lit "2025-0001") file0.name (contentTypeOf file0),
       ProtocolStep.putBytes (lit "https://signed.example/u") false,
       ProtocolStep.confirm (lit "2025-0001") (lit "avatars/2025-0001/p.jpg")] :=
  uploadAvatarFile_protocol
    ⟨fun _ _ _ => some ⟨lit "https://signed.example/u", lit "avatars/2025-0001/p.jpg", 600⟩,
     fun _ => true, fun _ _ => true⟩
    (lit "2025-0001") file0
    ⟨lit "https://signed.example/u", lit "avatars/2025-0001/p.jpg", 600⟩ rfl rfl

/-- C9: the 5 MB size cap of `validateAvatarFile`: an oversized file is
rejected (with the size message), both the creation and the update flow
then stop at validation, with no create/update call and no upload (and so
no upload-authorization request); a file within the cap with an
allow-listed MIME type passes validation. -/
theorem avatar_size_limit :
    (∀ f : FileModel, f.size > maxAvatarSize →
      validateAvatarFile f = some sizeErrMsg) ∧
    (∀ f : FileModel, f.size ≤ maxAvatarSize → f.type ∈ allowedTypes →
      validateAvatarFile f = none) ∧
    (∀ (draft : Draft) (f : FileModel), f.size > maxAvatarSize →
      validateStudentDraft draft true (some f) ≠ [] ∧
      validateStudentDraft draft false (some f) ≠ []) ∧
    (∀ (draft : Draft) (f : FileModel) (env : AddEnv) (db : List Str),
      f.size > maxAvatarSize →
      (onAdd draft (some f) env db).createCalled = false ∧
      (onAdd draft (some f) env db).uploadCalled = false ∧
      (onAdd draft (some f) env db).db = db) ∧
    (∀ (orig : Student) (draft : Draft) (f : FileModel) (env : UpdateEnv),
      f.size > maxAvatarSize →
      (onUpdate orig draft (some f) env).updateCalled = false ∧
      (onUpdate orig draft (some f) env).uploadCalled = false) := by
  refine ⟨fun f hf => oversize_validateAvatarFile f hf, ?_, ?_, ?_, ?_⟩
  · intro f hle ht
    simp [validateAvatarFile, Nat.not_lt.mpr hle, ht]
  · intro draft f hf
    exact ⟨oversize_draft_errors draft true f hf, oversize_draft_errors draft false f hf⟩
  · intro draft f env db hf
    simp [onAdd, oversize_draft_errors draft true f hf]
  · intro orig draft f env hf
    simp [onUpdate, oversize_draft_errors draft false f hf]

theorem avatar_size_limit_witness :
    validateAvatarFile ⟨lit "big.png", 5 * 1024 * 1024 + 1, lit "image/png"⟩ =
      some sizeErrMsg ∧
    validateAvatarFile ⟨lit "ok.png", 1000, lit "image/png"⟩ = none :=
  ⟨avatar_size_limit.1 ⟨lit "big.png", 5 * 1024 * 1024 + 1, lit "image/png"⟩ (by decide),
   avatar_size_limit.2.1 ⟨lit "ok.png", 1000, lit "image/png"⟩ (by decide) (by decide)⟩

theorem buildPhotoUrl_normalizes_witness :
    buildPhotoUrl (some (lit "/avatars/x.png")) = buildPhotoUrlSpec (lit "/avatars/x.png") ∧
    isValidPhotoUrl (some (buildPhotoUrl (some (lit "/avatars/x.png")))) = true :=
  buildPhotoUrl_normalizes.1 (lit "/avatars/x.png") (by decide)

end SSIS
